import Mathlib

/-!
Shallow embedding of the crisis-mode subsystem of the neighbourgood backend
(src/backend/app/routers/crisis.py, src/backend/app/models/crisis.py,
src/backend/app/schemas/crisis.py, and leave_community from
src/backend/app/routers/communities.py), together with proofs of the
specification claims about it.

Conventions:
- integer ids are Nat, timestamps are Int (epoch seconds);
- the database is a record of lists of rows; each endpoint is a function from
  the database (plus request data) to an Except value: error models an
  HTTPException (or an escaping Python exception), ok carries the response and
  the post-transaction database;
- Pydantic request-body validation (regex patterns, length bounds) runs before
  the handler body, exactly as FastAPI does.
-/

namespace NeighbourGood

/-- SQLAlchemy model Community (app/models/community.py), restricted to the
fields the crisis subsystem reads: id, name, is_active, mode. -/
structure Community where
  id : Nat
  name : String
  is_active : Bool
  mode : String
deriving DecidableEq

/-- SQLAlchemy model CommunityMember (app/models/community.py): surrogate id,
unique (community_id, user_id) pair, role in member or leader or admin. -/
structure CommunityMember where
  id : Nat
  community_id : Nat
  user_id : Nat
  role : String
deriving DecidableEq

/-- SQLAlchemy model CrisisVote (app/models/crisis.py): surrogate id,
(community_id, user_id) pair, vote_type in activate or deactivate. -/
structure CrisisVote where
  id : Nat
  community_id : Nat
  user_id : Nat
  vote_type : String
deriving DecidableEq

/-- SQLAlchemy model EmergencyTicket (app/models/crisis.py).  Note: the model
declares NO due_at column.  The alembic migration a1b2c3d4e5f6 (and the
startup DDL in app/main.py) add a due_at column to the emergency_tickets
table, but the ORM model was never extended, so attribute access
ticket.due_at on a mapped instance raises AttributeError at runtime. -/
structure EmergencyTicket where
  id : Nat
  community_id : Nat
  author_id : Nat
  ticket_type : String
  title : String
  description : String
  status : String
  urgency : String
  assigned_to_id : Option Nat
  created_at : Int
  updated_at : Int
deriving DecidableEq

/-- Row appended by app/services/activity.py record_activity. -/
structure Activity where
  event_type : String
  summary : String
  actor_id : Nat
  community_id : Option Nat
deriving DecidableEq

/-- The persistent store as seen by the crisis endpoints. -/
structure DB where
  communities : List Community
  members : List CommunityMember
  votes : List CrisisVote
  tickets : List EmergencyTicket
  activities : List Activity
  next_vote_id : Nat
  next_ticket_id : Nat
deriving DecidableEq

/-- Failure outcomes: the four HTTPException kinds raised by the routers, plus
attributeError for a Python AttributeError escaping the handler (HTTP 500). -/
inductive ApiError where
  | notFound (detail : String)
  | forbidden (detail : String)
  | conflict (detail : String)
  | validationError (detail : String)
  | attributeError (detail : String)
deriving DecidableEq

/-- VOTE_THRESHOLD_PCT = 60 (crisis.py line 30). -/
def VOTE_THRESHOLD_PCT : Nat := 60

/-- crisis.py _get_community: first community with the given id; 404 when
missing or inactive. -/
def _get_community (db : DB) (community_id : Nat) : Except ApiError Community :=
  match db.communities.find? (fun c => c.id == community_id) with
  | some c =>
      if c.is_active then .ok c else .error (.notFound "Community not found")
  | none => .error (.notFound "Community not found")

/-- crisis.py _require_membership: first membership row for the pair; 403 when
absent. -/
def _require_membership (db : DB) (community_id user_id : Nat) :
    Except ApiError CommunityMember :=
  match db.members.find? (fun m =>
      m.community_id == community_id && m.user_id == user_id) with
  | some m => .ok m
  | none => .error (.forbidden "Not a member")

/-- crisis.py _require_admin. -/
def _require_admin (db : DB) (community_id user_id : Nat) :
    Except ApiError CommunityMember :=
  match _require_membership db community_id user_id with
  | .error e => .error e
  | .ok m =>
      if m.role == "admin" then .ok m
      else .error (.forbidden "Admin access required")

/-- app/services/activity.py record_activity: append one Activity row. -/
def record_activity (db : DB) (event_type summary : String) (actor_id : Nat)
    (community_id : Option Nat) : DB :=
  { db with activities :=
      db.activities ++ [⟨event_type, summary, actor_id, community_id⟩] }

/-- Member count of a community, db.query(CommunityMember).filter(...).count(). -/
def memberCount (db : DB) (community_id : Nat) : Nat :=
  (db.members.filter (fun m => m.community_id == community_id)).length

/-- Vote count by type, db.query(CrisisVote).filter(community, vote_type).count(). -/
def voteCount (db : DB) (community_id : Nat) (vote_type : String) : Nat :=
  (db.votes.filter (fun v =>
    v.community_id == community_id && v.vote_type == vote_type)).length

/-- community.mode = m for the community row with the given id. -/
def setMode (db : DB) (community_id : Nat) (mode : String) : DB :=
  { db with communities := db.communities.map (fun c =>
      if c.id == community_id then { c with mode := mode } else c) }

/-- db.query(CrisisVote).filter(CrisisVote.community_id == community_id).delete(). -/
def clearVotes (db : DB) (community_id : Nat) : DB :=
  { db with votes :=
      db.votes.filter (fun v => !(v.community_id == community_id)) }

/-- Response model CrisisModeStatus (app/schemas/crisis.py). -/
structure CrisisModeStatus where
  community_id : Nat
  mode : String
  votes_to_activate : Nat := 0
  votes_to_deactivate : Nat := 0
  total_members : Nat := 0
  threshold_pct : Nat := 60
deriving DecidableEq

/-- The body of toggle_crisis_mode after its checks (crisis.py lines 131-159):
set the mode, delete every vote of the community, record the activity event
with the human label, and answer with the fresh status.  community is the row
fetched at the top of the handler. -/
def toggle_apply (db : DB) (community : Community) (community_id : Nat)
    (mode : String) (current_user : Nat) : CrisisModeStatus × DB :=
  let db1 := clearVotes (setMode db community_id mode) community_id
  let label := if mode == "red" then "Red Sky (crisis)" else "Blue Sky (normal)"
  let db2 := record_activity db1 "crisis_mode_changed"
      ("switched " ++ community.name ++ " to " ++ label)
      current_user (some community_id)
  ({ community_id := community_id, mode := mode,
     total_members := memberCount db2 community_id }, db2)

/-- crisis.py toggle_crisis_mode.  The mode value is validated by the Pydantic
pattern (blue|red) on CrisisModeToggle before the handler runs. -/
def toggle_crisis_mode (db : DB) (community_id : Nat) (mode : String)
    (current_user : Nat) : Except ApiError (CrisisModeStatus × DB) :=
  if !(mode == "blue" || mode == "red") then
    .error (.validationError "mode must match pattern blue or red")
  else
    match _get_community db community_id with
    | .error e => .error e
    | .ok community =>
      match _require_admin db community_id current_user with
      | .error e => .error e
      | .ok _ =>
        .ok (toggle_apply db community community_id mode current_user)

/-- crisis.py get_crisis_status. -/
def get_crisis_status (db : DB) (community_id : Nat) :
    Except ApiError CrisisModeStatus :=
  match _get_community db community_id with
  | .error e => .error e
  | .ok community =>
    .ok { community_id := community_id
          mode := community.mode
          votes_to_activate := voteCount db community_id "activate"
          votes_to_deactivate := voteCount db community_id "deactivate"
          total_members := memberCount db community_id }

/-- The insert-or-switch block of cast_crisis_vote (crisis.py lines 217-244):
first vote row for (community, user); same type again is a 409 Conflict; a
different type updates the row in place; otherwise a fresh row is inserted. -/
def record_vote (db : DB) (community_id user_id : Nat) (vote_type : String) :
    Except ApiError (CrisisVote × DB) :=
  match db.votes.find? (fun v =>
      v.community_id == community_id && v.user_id == user_id) with
  | some existing =>
      if existing.vote_type == vote_type then
        .error (.conflict "You have already voted this way")
      else
        let updated := { existing with vote_type := vote_type }
        .ok (updated, { db with votes := db.votes.map (fun v =>
            if v.id == existing.id then updated else v) })
  | none =>
      let vote : CrisisVote :=
        ⟨db.next_vote_id, community_id, user_id, vote_type⟩
      .ok (vote, { db with votes := db.votes ++ [vote],
                           next_vote_id := db.next_vote_id + 1 })

/-- The quorum block of cast_crisis_vote (crisis.py lines 252-283): recount
members and votes of the just-cast type, compare against
max(1, (total * 60 + 99) // 100), and when the threshold is met and the target
mode differs from the current mode, switch the mode, delete every vote of the
community and record the activity event.  community is the row fetched at the
top of the handler. -/
def check_threshold (db : DB) (community : Community)
    (community_id user_id : Nat) (vote_type : String) : DB :=
  let total_members := memberCount db community_id
  let vote_count := voteCount db community_id vote_type
  let threshold_needed := max 1 ((total_members * VOTE_THRESHOLD_PCT + 99) / 100)
  if vote_count ≥ threshold_needed then
    let new_mode := if vote_type == "activate" then "red" else "blue"
    if community.mode ≠ new_mode then
      let db1 := clearVotes (setMode db community_id new_mode) community_id
      let label :=
        if new_mode == "red" then "Red Sky (crisis)" else "Blue Sky (normal)"
      record_activity db1 "crisis_mode_changed"
        ("community vote switched " ++ community.name ++ " to " ++ label)
        user_id (some community_id)
    else db
  else db

/-- crisis.py cast_crisis_vote.  The vote_type is validated by the Pydantic
pattern (activate|deactivate) on CrisisVoteCreate before the handler runs.
The returned vote is captured before the quorum block may delete it. -/
def cast_crisis_vote (db : DB) (community_id : Nat) (vote_type : String)
    (current_user : Nat) : Except ApiError (CrisisVote × DB) :=
  if !(vote_type == "activate" || vote_type == "deactivate") then
    .error (.validationError "vote_type must match pattern activate or deactivate")
  else
    match _get_community db community_id with
    | .error e => .error e
    | .ok community =>
      match _require_membership db community_id current_user with
      | .error e => .error e
      | .ok _ =>
        match record_vote db community_id current_user vote_type with
        | .error e => .error e
        | .ok (vote, db1) =>
          .ok (vote,
            check_threshold db1 community community_id current_user vote_type)

/-- crisis.py retract_crisis_vote: delete the caller's vote row; 404 when none. -/
def retract_crisis_vote (db : DB) (community_id current_user : Nat) :
    Except ApiError DB :=
  match _get_community db community_id with
  | .error e => .error e
  | .ok _ =>
    match db.votes.find? (fun v =>
        v.community_id == community_id && v.user_id == current_user) with
    | none => .error (.notFound "No vote to retract")
    | some vote =>
        .ok { db with votes := db.votes.filter (fun v => !(v.id == vote.id)) }

/-- communities.py leave_community: delete the caller's membership row only;
404 when not a member.  No other table is touched. -/
def leave_community (db : DB) (community_id current_user : Nat) :
    Except ApiError DB :=
  match db.members.find? (fun m =>
      m.community_id == community_id && m.user_id == current_user) with
  | none => .error (.notFound "Not a member")
  | some membership =>
      .ok { db with members :=
              db.members.filter (fun m => !(m.id == membership.id)) }

/-- Stable insertion into a descending-sorted list: the new element goes
before the first element whose key is not larger, so earlier elements with an
equal key keep their position (the stability guarantee of Python list.sort
with reverse=True). -/
def insertByDesc (key : α → Int) (a : α) : List α → List α
  | [] => [a]
  | b :: bs => if key b ≤ key a then a :: b :: bs else b :: insertByDesc key a bs

/-- Stable descending sort by an integer key, models Python
list.sort(key=..., reverse=True). -/
def sortByDesc (key : α → Int) : List α → List α
  | [] => []
  | a :: as => insertByDesc key a (sortByDesc key as)

/-- _URGENCY_RANK.get(urgency, 1) (crisis.py line 32): low 1, medium 2, high 3,
critical 4, anything else defaults to 1. -/
def _URGENCY_RANK (urgency : String) : Int :=
  if urgency == "low" then 1
  else if urgency == "medium" then 2
  else if urgency == "high" then 3
  else if urgency == "critical" then 4
  else 1

/-- crisis.py _triage_score (lines 35-48) as the pure formula over the values
the function reads: urgency and created_at from the ticket, due_at as the value
the attribute read would yield, and now.  Python computes
min(int((now - created_at).total_seconds() / 3600), 99); int() truncates toward
zero, which is Int.tdiv on whole seconds.  An overdue due_at adds 200. -/
def _triage_score (urgency : String) (created_at : Int) (due_at : Option Int)
    (now : Int) : Int :=
  let urgency_weight := _URGENCY_RANK urgency
  let age_hours := min (Int.tdiv (now - created_at) 3600) 99
  let score := urgency_weight * 100 + age_hours
  match due_at with
  | some d => if d < now then score + 200 else score
  | none => score

/-- _triage_score applied to an actual EmergencyTicket ORM row, as the router
does.  The function reads ticket.due_at, but the EmergencyTicket model
(app/models/crisis.py) declares no due_at column, so the attribute access
raises AttributeError on every row. -/
def triage_score_of_ticket (_ticket : EmergencyTicket) (_now : Int) :
    Except ApiError Int :=
  .error (.attributeError "EmergencyTicket object has no attribute due_at")

/-- Response model EmergencyTicketOut (app/schemas/crisis.py lines 61-74).  Its
declared fields are exactly these: it declares NEITHER a due_at NOR a
triage_score field, so even if construction succeeded, those keyword arguments
would be dropped by Pydantic (default extra behavior is ignore).  The nested
author and assigned_to UserProfile values are represented by their ids. -/
structure EmergencyTicketOut where
  id : Nat
  community_id : Nat
  author_id : Nat
  ticket_type : String
  title : String
  description : String
  status : String
  urgency : String
  assigned_to_id : Option Nat
  created_at : Int
  updated_at : Int
deriving DecidableEq

/-- crisis.py _ticket_to_out (lines 51-67): builds EmergencyTicketOut passing
due_at=ticket.due_at and triage_score=_triage_score(ticket).  Both evaluate the
missing due_at attribute, so the call raises AttributeError before any
response object is produced; the ok branch (which Pydantic would reach were the
attribute present, silently dropping the undeclared keywords) is never taken. -/
def _ticket_to_out (ticket : EmergencyTicket) (now : Int) :
    Except ApiError EmergencyTicketOut :=
  match triage_score_of_ticket ticket now with
  | .error e => .error e
  | .ok _ =>
      .ok { id := ticket.id
            community_id := ticket.community_id
            author_id := ticket.author_id
            ticket_type := ticket.ticket_type
            title := ticket.title
            description := ticket.description
            status := ticket.status
            urgency := ticket.urgency
            assigned_to_id := ticket.assigned_to_id
            created_at := ticket.created_at
            updated_at := ticket.updated_at }

/-- Request model EmergencyTicketCreate (app/schemas/crisis.py lines 46-50).
Declared fields: ticket_type, title, description, urgency.  There is NO due_at
field. -/
structure EmergencyTicketCreate where
  ticket_type : String
  title : String
  description : String := ""
  urgency : String := "medium"
deriving DecidableEq

/-- Pydantic validation of EmergencyTicketCreate: ticket_type pattern
(request|offer|emergency_ping), title length 1..300, description length at
most 5000, urgency pattern (low|medium|high|critical). -/
def validTicketCreate (body : EmergencyTicketCreate) : Bool :=
  (body.ticket_type == "request" || body.ticket_type == "offer" ||
    body.ticket_type == "emergency_ping")
  && 1 ≤ body.title.length && body.title.length ≤ 300
  && body.description.length ≤ 5000
  && (body.urgency == "low" || body.urgency == "medium" ||
    body.urgency == "high" || body.urgency == "critical")

/-- crisis.py create_ticket (lines 318-360).  After the membership check and
the red-mode gate for emergency_ping, the handler evaluates
EmergencyTicket(..., due_at=body.due_at).  EmergencyTicketCreate declares no
due_at field, so body.due_at raises AttributeError before the row constructor
runs; nothing is persisted and no activity event is recorded, on every input
that passes the earlier checks. -/
def create_ticket (db : DB) (community_id : Nat) (body : EmergencyTicketCreate)
    (current_user : Nat) (_now : Int) :
    Except ApiError (EmergencyTicketOut × DB) :=
  if !(validTicketCreate body) then
    .error (.validationError "request body failed schema validation")
  else
    match _get_community db community_id with
    | .error e => .error e
    | .ok community =>
      match _require_membership db community_id current_user with
      | .error e => .error e
      | .ok _ =>
        if body.ticket_type == "emergency_ping" && !(community.mode == "red") then
          .error (.validationError
            "Emergency pings are only available in Red Sky (crisis) mode")
        else
          .error (.attributeError
            "EmergencyTicketCreate object has no attribute due_at")

/-- A value of a JSON PATCH body entry, as far as the update schema needs. -/
inductive PatchValue where
  | str (s : String)
  | num (n : Nat)
  | null
deriving DecidableEq

/-- The declared fields of EmergencyTicketUpdate (app/schemas/crisis.py lines
53-58): title, description, status, urgency, assigned_to_id.  due_at is NOT
declared. -/
def ticketUpdateFields : List String :=
  ["title", "description", "status", "urgency", "assigned_to_id"]

/-- Pydantic model_fields_set for an EmergencyTicketUpdate parsed from a JSON
patch: exactly the declared fields present in the input; unknown keys such as
due_at are dropped (default extra behavior is ignore) and never appear. -/
def model_fields_set (patch : List (String × PatchValue)) : List String :=
  (patch.map Prod.fst).filter (fun k => ticketUpdateFields.contains k)

/-- Parsed EmergencyTicketUpdate. -/
structure EmergencyTicketUpdate where
  title : Option String := none
  description : Option String := none
  status : Option String := none
  urgency : Option String := none
  assigned_to_id : Option Nat := none
deriving DecidableEq

/-- The non-null string value of a declared patch key, if present. -/
def lookupStr (patch : List (String × PatchValue)) (key : String) :
    Option String :=
  match patch.lookup key with
  | some (.str s) => some s
  | _ => none

/-- The non-null integer value of a declared patch key, if present. -/
def lookupNat (patch : List (String × PatchValue)) (key : String) :
    Option Nat :=
  match patch.lookup key with
  | some (.num n) => some n
  | _ => none

/-- Pydantic parsing of a PATCH body into EmergencyTicketUpdate: declared
fields are populated, everything else (including due_at) is ignored. -/
def parseTicketUpdate (patch : List (String × PatchValue)) :
    EmergencyTicketUpdate :=
  { title := lookupStr patch "title"
    description := lookupStr patch "description"
    status := lookupStr patch "status"
    urgency := lookupStr patch "urgency"
    assigned_to_id := lookupNat patch "assigned_to_id" }

/-- Pydantic validation of one patch entry against the EmergencyTicketUpdate
field constraints; unknown keys are ignored, so always valid. -/
def validPatchEntry (key : String) (value : PatchValue) : Bool :=
  if key == "title" then
    match value with
    | .str s => 1 ≤ s.length && s.length ≤ 300
    | .null => true
    | _ => false
  else if key == "description" then
    match value with
    | .str s => s.length ≤ 5000
    | .null => true
    | _ => false
  else if key == "status" then
    match value with
    | .str s => s == "open" || s == "in_progress" || s == "resolved"
    | .null => true
    | _ => false
  else if key == "urgency" then
    match value with
    | .str s => s == "low" || s == "medium" || s == "high" || s == "critical"
    | .null => true
    | _ => false
  else if key == "assigned_to_id" then
    match value with
    | .num _ => true
    | .null => true
    | _ => false
  else true

/-- Pydantic validation of the whole PATCH body. -/
def validTicketUpdate (patch : List (String × PatchValue)) : Bool :=
  patch.all (fun kv => validPatchEntry kv.1 kv.2)

/-- crisis.py update_ticket (lines 478-545).  The patch is applied field by
field (title, description, status, urgency when not None); the due_at branch
tests for due_at in model_fields_set, which never holds because the schema
declares no such field; assigned_to_id is checked against membership.  The
commit happens before _ticket_to_out builds the response, so when the
serialization raises AttributeError the field changes are already persisted:
the result pairs the response outcome with the post-commit database. -/
def update_ticket (db : DB) (community_id ticket_id : Nat)
    (patch : List (String × PatchValue)) (current_user : Nat) (now : Int) :
    (Except ApiError EmergencyTicketOut) × DB :=
  if !(validTicketUpdate patch) then
    (.error (.validationError "request body failed schema validation"), db)
  else
    match _get_community db community_id with
    | .error e => (.error e, db)
    | .ok _ =>
      match _require_membership db community_id current_user with
      | .error e => (.error e, db)
      | .ok membership =>
        match db.tickets.find? (fun t =>
            t.id == ticket_id && t.community_id == community_id) with
        | none => (.error (.notFound "Ticket not found"), db)
        | some ticket =>
          if !(ticket.author_id == current_user) &&
              !(membership.role == "admin" || membership.role == "leader") then
            (.error (.forbidden
              "Only the author, leaders, or admins can update this ticket"), db)
          else
            let body := parseTicketUpdate patch
            let t1 := match body.title with
              | some s => { ticket with title := s }
              | none => ticket
            let t2 := match body.description with
              | some s => { t1 with description := s }
              | none => t1
            let t3 := match body.status with
              | some s => { t2 with status := s }
              | none => t2
            let t4 := match body.urgency with
              | some s => { t3 with urgency := s }
              | none => t3
            if (model_fields_set patch).contains "due_at" then
              (.error (.attributeError
                "EmergencyTicketUpdate object has no attribute due_at"), db)
            else
              match body.assigned_to_id with
              | some assignee_id =>
                if (db.members.find? (fun m =>
                    m.community_id == community_id &&
                    m.user_id == assignee_id)).isSome then
                  let t5 := { t4 with assigned_to_id := some assignee_id }
                  let db1 := { db with tickets := db.tickets.map (fun t =>
                      if t.id == ticket_id then t5 else t) }
                  (_ticket_to_out t5 now, db1)
                else
                  (.error (.validationError
                    "Assignee must be a community member"), db)
              | none =>
                  let db1 := { db with tickets := db.tickets.map (fun t =>
                      if t.id == ticket_id then t4 else t) }
                  (_ticket_to_out t4 now, db1)

/-- crisis.py get_ticket (lines 452-478): membership-gated single-ticket read;
the response goes through _ticket_to_out. -/
def get_ticket (db : DB) (community_id ticket_id : Nat) (current_user : Nat)
    (now : Int) : Except ApiError EmergencyTicketOut := do
  let _ ← _get_community db community_id
  let _ ← _require_membership db community_id current_user
  match db.tickets.find? (fun t =>
      t.id == ticket_id && t.community_id == community_id) with
  | none => throw (.notFound "Ticket not found")
  | some ticket => _ticket_to_out ticket now

/-- crisis.py list_tickets (lines 363-407): optional exact-match filters (a
falsy, i.e. empty, query value disables its filter), count before slicing;
priority_desc computes every triage key and sorts descending before the
skip/limit slice, created_desc orders by creation time descending.  Every path
that renders at least one ticket, and the key computation itself, reads the
missing due_at attribute. -/
def list_tickets (db : DB) (community_id : Nat)
    (ticket_type ticket_status urgency : Option String) (sort : String)
    (skip limit : Nat) (current_user : Nat) (now : Int) :
    Except ApiError (List EmergencyTicketOut × Nat) := do
  if !(1 ≤ limit && limit ≤ 100) then
    throw (.validationError "limit must be between 1 and 100")
  let _ ← _get_community db community_id
  let _ ← _require_membership db community_id current_user
  let q0 := db.tickets.filter (fun t => t.community_id == community_id)
  let q1 := match ticket_type with
    | some s => if s.isEmpty then q0
        else q0.filter (fun t => t.ticket_type == s)
    | none => q0
  let q2 := match ticket_status with
    | some s => if s.isEmpty then q1
        else q1.filter (fun t => t.status == s)
    | none => q1
  let q3 := match urgency with
    | some s => if s.isEmpty then q2
        else q2.filter (fun t => t.urgency == s)
    | none => q2
  let total := q3.length
  if sort == "priority_desc" then
    let keyed ← q3.mapM (fun t => do
      let s ← triage_score_of_ticket t now
      pure (s, t))
    let sorted := (sortByDesc (fun p => p.1) keyed).map Prod.snd
    let page := (sorted.drop skip).take limit
    let items ← page.mapM (fun t => _ticket_to_out t now)
    .ok (items, total)
  else
    let ordered := sortByDesc (fun t => t.created_at) q3
    let page := (ordered.drop skip).take limit
    let items ← page.mapM (fun t => _ticket_to_out t now)
    .ok (items, total)

/-- crisis.py triage_tickets (lines 410-444): leader/admin only; tickets of the
community with status other than resolved, sorted by triage score descending;
the sort key and the serialization both read the missing due_at attribute. -/
def triage_tickets (db : DB) (community_id current_user : Nat) (now : Int) :
    Except ApiError (List EmergencyTicketOut × Nat) := do
  let _ ← _get_community db community_id
  let membership ← _require_membership db community_id current_user
  if !(membership.role == "admin" || membership.role == "leader") then
    throw (.forbidden "Only leaders and admins can access the triage view")
  let tickets := db.tickets.filter (fun t =>
      t.community_id == community_id && !(t.status == "resolved"))
  let keyed ← tickets.mapM (fun t => do
    let s ← triage_score_of_ticket t now
    pure (s, t))
  let sorted := (sortByDesc (fun p => p.1) keyed).map Prod.snd
  let items ← sorted.mapM (fun t => _ticket_to_out t now)
  .ok (items, tickets.length)

/-- The mode of the community row with the given id, as the router reads it
(first row matching the id). -/
def modeOf (db : DB) (community_id : Nat) : Option String :=
  (db.communities.find? (fun c => c.id == community_id)).map Community.mode

/-- All CrisisVote rows of a community. -/
def votesFor (db : DB) (community_id : Nat) : List CrisisVote :=
  db.votes.filter (fun v => v.community_id == community_id)

/-- All CrisisVote rows of a (community, user) pair. -/
def pairVotes (db : DB) (community_id user_id : Nat) : List CrisisVote :=
  db.votes.filter (fun v =>
    v.community_id == community_id && v.user_id == user_id)

/-- The claimed invariant: at most one vote per (community, user) pair. -/
def atMostOneVotePerPair (db : DB) : Prop :=
  ∀ community_id user_id, (pairVotes db community_id user_id).length ≤ 1

/-- Database well-formedness carried through the vote operations: vote row ids
are pairwise distinct primary keys below the id counter, and each
(community, user) pair owns at most one vote row. -/
def VotesWF (db : DB) : Prop :=
  (db.votes.map CrisisVote.id).Nodup
  ∧ (∀ v ∈ db.votes, v.id < db.next_vote_id)
  ∧ atMostOneVotePerPair db

/-- One request against the vote state: cast_vote, retract_vote or
toggle_mode, by some user against some community. -/
inductive Op where
  | cast (community_id user_id : Nat) (vote_type : String)
  | retract (community_id user_id : Nat)
  | toggle (community_id user_id : Nat) (mode : String)

/-- Run one request; a failing request raises an HTTPException, the
transaction is rolled back and the state is unchanged. -/
def applyOp (db : DB) (op : Op) : DB :=
  match op with
  | .cast community_id user_id vote_type =>
      match cast_crisis_vote db community_id vote_type user_id with
      | .ok (_, db') => db'
      | .error _ => db
  | .retract community_id user_id =>
      match retract_crisis_vote db community_id user_id with
      | .ok db' => db'
      | .error _ => db
  | .toggle community_id user_id mode =>
      match toggle_crisis_mode db community_id mode user_id with
      | .ok (_, db') => db'
      | .error _ => db

/-- Run a sequence of requests. -/
def runOps (db : DB) (ops : List Op) : DB := ops.foldl applyOp db

/-- Scenario: one active blue community with a single member, no votes. -/
def dbSolo : DB :=
  { communities := [⟨1, "Kiez", true, "blue"⟩]
    members := [⟨1, 1, 10, "member"⟩]
    votes := []
    tickets := []
    activities := []
    next_vote_id := 1
    next_ticket_id := 1 }

/-- dbSolo after its member's activate vote has been recorded (the state the
quorum block of cast_crisis_vote sees). -/
def dbSoloVoted : DB :=
  { dbSolo with votes := [⟨1, 1, 10, "activate"⟩], next_vote_id := 2 }

/-- Scenario: one active blue community with three members, user 10 already
holding an activate vote. -/
def dbTrio : DB :=
  { communities := [⟨1, "Kiez", true, "blue"⟩]
    members := [⟨1, 1, 10, "member"⟩, ⟨2, 1, 11, "member"⟩,
                ⟨3, 1, 12, "member"⟩]
    votes := [⟨1, 1, 10, "activate"⟩]
    tickets := []
    activities := []
    next_vote_id := 2
    next_ticket_id := 1 }

/-- Scenario: one active blue community whose only member is an admin, with a
stale vote row left by some user. -/
def dbAdmin : DB :=
  { communities := [⟨1, "Kiez", true, "blue"⟩]
    members := [⟨1, 1, 10, "admin"⟩, ⟨2, 1, 11, "member"⟩]
    votes := [⟨1, 1, 99, "activate"⟩]
    tickets := []
    activities := []
    next_vote_id := 2
    next_ticket_id := 1 }

/-- Scenario: a blue community (id 1) and a red community (id 2), user 2 a
member of both. -/
def dbTwoModes : DB :=
  { communities := [⟨1, "Bluetown", true, "blue"⟩, ⟨2, "Redtown", true, "red"⟩]
    members := [⟨1, 1, 2, "member"⟩, ⟨2, 2, 2, "member"⟩]
    votes := []
    tickets := []
    activities := []
    next_vote_id := 1
    next_ticket_id := 1 }

/-- Scenario: an active community with a member (user 2), a leader (user 9)
and one open ticket authored by user 2. -/
def dbTicket : DB :=
  { communities := [⟨1, "Kiez", true, "blue"⟩]
    members := [⟨1, 1, 2, "member"⟩, ⟨2, 1, 9, "leader"⟩]
    votes := []
    tickets := [⟨5, 1, 2, "request", "Need a generator", "", "open", "medium",
                 none, 0, 0⟩]
    activities := []
    next_vote_id := 1
    next_ticket_id := 6 }

/-- Scenario for the leave-community interaction: an active blue community
with two members, no votes yet. -/
def dbPair : DB :=
  { communities := [⟨1, "Kiez", true, "blue"⟩]
    members := [⟨1, 1, 1, "admin"⟩, ⟨2, 1, 2, "member"⟩]
    votes := []
    tickets := []
    activities := []
    next_vote_id := 1
    next_ticket_id := 1 }

/-- dbPair after user 1 left: only the membership row is gone. -/
def dbPairLeft : DB :=
  { dbPair with members := [⟨2, 1, 2, "member"⟩] }

/-- A PATCH body that explicitly sets due_at and nothing else. -/
def duePatch : List (String × PatchValue) :=
  [("due_at", .str "2026-03-01T00:00:00")]

/-- A PATCH body that sets the title and due_at. -/
def titleDuePatch : List (String × PatchValue) :=
  [("title", .str "Updated title"), ("due_at", .str "2026-03-01T00:00:00")]

/-- dbTicket after the title of ticket 5 was updated; no other change. -/
def dbTicketRetitled : DB :=
  { dbTicket with tickets := [⟨5, 1, 2, "request", "Updated title", "", "open",
                               "medium", none, 0, 0⟩] }

/-!  Theorems.  First, helper lemmas shared by the claim theorems. -/

theorem get_community_ok {db : DB} {community_id : Nat} {c : Community}
    (hc : db.communities.find? (fun x => x.id == community_id) = some c)
    (hact : c.is_active = true) :
    _get_community db community_id = .ok c := by
  unfold _get_community
  rw [hc]
  simp [hact]

theorem require_membership_ok {db : DB} {community_id user_id : Nat}
    {m : CommunityMember}
    (hm : db.members.find? (fun x =>
      x.community_id == community_id && x.user_id == user_id) = some m) :
    _require_membership db community_id user_id = .ok m := by
  unfold _require_membership
  rw [hm]

theorem record_vote_frame {db : DB} {community_id user_id : Nat} {vt : String}
    {vote : CrisisVote} {db1 : DB}
    (h : record_vote db community_id user_id vt = .ok (vote, db1)) :
    db1.communities = db.communities ∧ db1.members = db.members ∧
      db1.tickets = db.tickets ∧ db1.activities = db.activities := by
  unfold record_vote at h
  split at h
  · split at h
    · simp at h
    · simp only [Except.ok.injEq, Prod.mk.injEq] at h
      obtain ⟨-, h2⟩ := h
      subst h2
      exact ⟨rfl, rfl, rfl, rfl⟩
  · simp only [Except.ok.injEq, Prod.mk.injEq] at h
    obtain ⟨-, h2⟩ := h
    subst h2
    exact ⟨rfl, rfl, rfl, rfl⟩

theorem modeOf_record_activity (db : DB) (et s : String) (a : Nat)
    (oc : Option Nat) (community_id : Nat) :
    modeOf (record_activity db et s a oc) community_id =
      modeOf db community_id := rfl

theorem modeOf_clearVotes (db : DB) (cid community_id : Nat) :
    modeOf (clearVotes db cid) community_id = modeOf db community_id := rfl

theorem votesFor_record_activity (db : DB) (et s : String) (a : Nat)
    (oc : Option Nat) (community_id : Nat) :
    votesFor (record_activity db et s a oc) community_id =
      votesFor db community_id := rfl

theorem find?_setMode (db : DB) (community_id : Nat) (m : String) :
    (setMode db community_id m).communities.find?
        (fun c => c.id == community_id) =
      (db.communities.find? (fun c => c.id == community_id)).map
        (fun c => if c.id == community_id then { c with mode := m } else c) := by
  show (db.communities.map _).find? _ = _
  rw [List.find?_map]
  have hfun : ∀ c : Community,
      ((fun x : Community => x.id == community_id) ∘ fun x =>
        if x.id == community_id then { x with mode := m } else x) c =
      ((fun x : Community => x.id == community_id) c) := by
    intro c
    by_cases h : (c.id == community_id) = true <;> simp [Function.comp, h]
  rw [funext hfun]

theorem modeOf_setMode_self {db : DB} {community_id : Nat} {c : Community}
    (hc : db.communities.find? (fun x => x.id == community_id) = some c)
    (m : String) :
    modeOf (setMode db community_id m) community_id = some m := by
  unfold modeOf
  rw [find?_setMode, hc]
  have hid := List.find?_some hc
  have hid' : c.id = community_id := by simpa using hid
  simp [hid']

theorem filter_not_filter_eq_nil (l : List CrisisVote) (p : CrisisVote → Bool) :
    (l.filter (fun v => !(p v))).filter p = [] := by
  rw [List.filter_filter]
  apply List.eq_nil_iff_forall_not_mem.mpr
  intro v hv
  have hpv := List.of_mem_filter hv
  simp at hpv

theorem votesFor_clearVotes (db : DB) (community_id : Nat) :
    votesFor (clearVotes db community_id) community_id = [] :=
  filter_not_filter_eq_nil db.votes (fun v => v.community_id == community_id)

theorem cast_eq_of_record {db : DB} {community_id user_id : Nat} {vt : String}
    {c : Community} {vote : CrisisVote} {db1 : DB}
    (hc : db.communities.find? (fun x => x.id == community_id) = some c)
    (hact : c.is_active = true)
    (hmem : (db.members.find? (fun m =>
      m.community_id == community_id && m.user_id == user_id)).isSome = true)
    (hpat : (vt == "activate" || vt == "deactivate") = true)
    (hrec : record_vote db community_id user_id vt = .ok (vote, db1)) :
    cast_crisis_vote db community_id vt user_id =
      .ok (vote, check_threshold db1 c community_id user_id vt) := by
  obtain ⟨m, hm⟩ := Option.isSome_iff_exists.mp hmem
  unfold cast_crisis_vote
  rw [hpat, get_community_ok hc hact, require_membership_ok hm, hrec]
  rfl

theorem check_threshold_switch {db1 : DB} {c : Community}
    {community_id user_id : Nat} {vt : String} {c' : Community}
    (hge : voteCount db1 community_id vt ≥
      max 1 ((memberCount db1 community_id * VOTE_THRESHOLD_PCT + 99) / 100))
    (hne : c.mode ≠ (if vt == "activate" then "red" else "blue"))
    (hc1 : db1.communities.find? (fun x => x.id == community_id) = some c') :
    modeOf (check_threshold db1 c community_id user_id vt) community_id =
      some (if vt == "activate" then "red" else "blue")
    ∧ votesFor (check_threshold db1 c community_id user_id vt)
        community_id = [] := by
  simp only [check_threshold]
  rw [if_pos hge, if_pos hne]
  constructor
  · rw [modeOf_record_activity, modeOf_clearVotes]
    exact modeOf_setMode_self hc1 _
  · rw [votesFor_record_activity]
    exact votesFor_clearVotes _ _

theorem check_threshold_no_switch {db1 : DB} {c : Community}
    {community_id user_id : Nat} {vt : String}
    (h : voteCount db1 community_id vt <
        max 1 ((memberCount db1 community_id * VOTE_THRESHOLD_PCT + 99) / 100)
      ∨ c.mode = (if vt == "activate" then "red" else "blue")) :
    check_threshold db1 c community_id user_id vt = db1 := by
  simp only [check_threshold]
  rcases h with hlt | heq
  · rw [if_neg (Nat.not_le.mpr hlt)]
  · by_cases hge : voteCount db1 community_id vt ≥
        max 1 ((memberCount db1 community_id * VOTE_THRESHOLD_PCT + 99) / 100)
    · rw [if_pos hge, if_neg (fun hne => hne heq)]
    · rw [if_neg hge]

/-- Claim C1: for every active community with N members and every member actor
whose cast_vote call records a vote (newly inserted or switched), with
T = max(1, ceil(N*60/100)): the call returns the recorded vote and the state
produced by the quorum block; when the stored count of the just-cast vote_type
reaches T and the target mode (activate to red, deactivate to blue) differs
from the community's current mode, the community ends in the target mode with
zero CrisisVote rows; when the count is below T or the target equals the
current mode, the mode is unchanged. -/
theorem cast_vote_quorum (db : DB) (community_id user_id : Nat) (vt : String)
    (c : Community) (vote : CrisisVote) (db1 : DB)
    (hc : db.communities.find? (fun x => x.id == community_id) = some c)
    (hact : c.is_active = true)
    (hmem : (db.members.find? (fun m =>
      m.community_id == community_id && m.user_id == user_id)).isSome = true)
    (hvt : vt = "activate" ∨ vt = "deactivate")
    (hrec : record_vote db community_id user_id vt = .ok (vote, db1)) :
    cast_crisis_vote db community_id vt user_id =
      .ok (vote, check_threshold db1 c community_id user_id vt)
    ∧ (max 1 ((memberCount db community_id * 60) ⌈/⌉ 100) ≤
         voteCount db1 community_id vt →
       (if vt == "activate" then "red" else "blue") ≠ c.mode →
         modeOf (check_threshold db1 c community_id user_id vt) community_id =
           some (if vt == "activate" then "red" else "blue")
         ∧ votesFor (check_threshold db1 c community_id user_id vt)
             community_id = [])
    ∧ (voteCount db1 community_id vt <
         max 1 ((memberCount db community_id * 60) ⌈/⌉ 100) ∨
       (if vt == "activate" then "red" else "blue") = c.mode →
         modeOf (check_threshold db1 c community_id user_id vt) community_id =
           some c.mode) := by
  have hpat : (vt == "activate" || vt == "deactivate") = true := by
    rcases hvt with h | h <;> simp [h]
  obtain ⟨hcom, hmem1, -, -⟩ := record_vote_frame hrec
  have hN : memberCount db1 community_id = memberCount db community_id := by
    unfold memberCount; rw [hmem1]
  have hmode1 : modeOf db1 community_id = some c.mode := by
    unfold modeOf; rw [hcom, hc]; rfl
  have hc1 : db1.communities.find? (fun x => x.id == community_id) = some c := by
    rw [hcom]; exact hc
  refine ⟨cast_eq_of_record hc hact hmem hpat hrec, ?_, ?_⟩
  · intro hT hne
    have hge : voteCount db1 community_id vt ≥
        max 1 ((memberCount db1 community_id * VOTE_THRESHOLD_PCT + 99) / 100) := by
      rw [hN]; exact hT
    exact check_threshold_switch hge (Ne.symm hne) hc1
  · intro h
    have hcase : voteCount db1 community_id vt <
        max 1 ((memberCount db1 community_id * VOTE_THRESHOLD_PCT + 99) / 100)
      ∨ c.mode = (if vt == "activate" then "red" else "blue") := by
      rcases h with hlt | heq
      · left; rw [hN]; exact hlt
      · right; exact heq.symm
    rw [check_threshold_no_switch hcase]
    exact hmode1

/-- Witness for cast_vote_quorum: in a one-member community the member's
single activate vote reaches the threshold max(1, ceil(1*60/100)) = 1 and the
call switches the community from blue to red, clearing the votes. -/
theorem cast_vote_quorum_witness :
    cast_crisis_vote dbSolo 1 "activate" 10 =
      .ok (⟨1, 1, 10, "activate"⟩,
           check_threshold dbSoloVoted ⟨1, "Kiez", true, "blue"⟩ 1 10 "activate")
    ∧ modeOf (check_threshold dbSoloVoted ⟨1, "Kiez", true, "blue"⟩
        1 10 "activate") 1 = some "red"
    ∧ votesFor (check_threshold dbSoloVoted ⟨1, "Kiez", true, "blue"⟩
        1 10 "activate") 1 = [] := by
  have h := cast_vote_quorum dbSolo 1 10 "activate" ⟨1, "Kiez", true, "blue"⟩
    ⟨1, 1, 10, "activate"⟩ dbSoloVoted rfl rfl rfl (Or.inl rfl) rfl
  exact ⟨h.1, (h.2.1 (by decide) (by decide)).1, (h.2.1 (by decide) (by decide)).2⟩

theorem check_threshold_votes (db1 : DB) (c : Community)
    (community_id user_id : Nat) (vt : String) :
    (check_threshold db1 c community_id user_id vt).votes = db1.votes ∨
    (check_threshold db1 c community_id user_id vt).votes =
      db1.votes.filter (fun v => !(v.community_id == community_id)) := by
  by_cases hge : voteCount db1 community_id vt ≥
      max 1 ((memberCount db1 community_id * VOTE_THRESHOLD_PCT + 99) / 100)
  · by_cases hne : c.mode ≠ (if vt == "activate" then "red" else "blue")
    · right
      simp only [check_threshold]
      rw [if_pos hge, if_pos hne]
      rfl
    · left
      simp only [check_threshold]
      rw [if_pos hge, if_neg hne]
  · left
    simp only [check_threshold]
    rw [if_neg hge]

theorem pairVotes_check_threshold_le (db1 : DB) (c : Community)
    (community_id user_id : Nat) (vt : String) (p q : Nat) :
    (pairVotes (check_threshold db1 c community_id user_id vt) p q).length ≤
      (pairVotes db1 p q).length := by
  rcases check_threshold_votes db1 c community_id user_id vt with h | h
  · unfold pairVotes
    rw [h]
  · unfold pairVotes
    rw [h]
    exact ((List.filter_sublist _).filter _).length_le

theorem length_filter_map_update {l : List CrisisVote} {e : CrisisVote}
    (hids : (l.map CrisisVote.id).Nodup) (hmem : e ∈ l) (vt : String)
    (p q : Nat) :
    ((l.map (fun v => if v.id == e.id then { e with vote_type := vt } else v)).filter
        (fun v => v.community_id == p && v.user_id == q)).length =
      (l.filter (fun v => v.community_id == p && v.user_id == q)).length := by
  rw [List.filter_map, List.length_map]
  congr 1
  apply List.filter_congr
  intro v hv
  show ((fun v => v.community_id == p && v.user_id == q)
      (if v.id == e.id then { e with vote_type := vt } else v)) = _
  by_cases hid : (v.id == e.id) = true
  · have hveq : v = e :=
      List.inj_on_of_nodup_map hids hv hmem (by simpa using hid)
    subst hveq
    simp [hid]
  · simp [hid]

/-- Claim C2: the claim asserts that an overdue ticket always scores strictly
higher than any non-overdue ticket.  The code refutes it: with equal ages
(zero hours), an overdue low ticket scores 1*100 + 0 + 200 = 300 while a
non-overdue critical ticket scores 4*100 + 0 = 400, so the overdue ticket
ranks strictly lower, contradicting the claim (and the docstring of
_triage_score, which says the +200 escalates overdue tickets above
everything else). -/
theorem overdue_low_scores_below_fresh_critical :
    _triage_score "low" 0 (some (-3600)) 0 = 300 ∧
    _triage_score "critical" 0 none 0 = 400 ∧
    _triage_score "low" 0 (some (-3600)) 0 <
      _triage_score "critical" 0 none 0 := by
  decide

/-- Claim C3: the claim says create_ticket succeeds for every valid member
input and persists the ticket.  The code refutes it: the handler evaluates
body.due_at, but EmergencyTicketCreate declares no due_at field, so every
call that passes the membership and mode checks raises AttributeError and
nothing is persisted.  Here a member files a perfectly valid offer ticket. -/
theorem create_ticket_always_raises :
    create_ticket dbTicket 1 ⟨"offer", "Spare water", "", "low"⟩ 2 0 =
      .error (.attributeError
        "EmergencyTicketCreate object has no attribute due_at") := by
  rfl

/-- Claim C4: the claim says every ticket returned by create_ticket,
get_ticket, list_tickets and triage_view carries a computed triage_score.
The code refutes it: EmergencyTicketOut declares no triage_score (nor due_at)
field, and serialization evaluates _triage_score(ticket), which reads the
missing due_at attribute of the EmergencyTicket model, so every read of an
existing ticket raises AttributeError and no ticket is ever returned. -/
theorem ticket_reads_raise_attribute_error :
    get_ticket dbTicket 1 5 2 0 =
      .error (.attributeError
        "EmergencyTicket object has no attribute due_at") ∧
    triage_tickets dbTicket 1 9 0 =
      .error (.attributeError
        "EmergencyTicket object has no attribute due_at") ∧
    list_tickets dbTicket 1 none none none "priority_desc" 0 20 2 0 =
      .error (.attributeError
        "EmergencyTicket object has no attribute due_at") ∧
    list_tickets dbTicket 1 none none none "created_desc" 0 20 2 0 =
      .error (.attributeError
        "EmergencyTicket object has no attribute due_at") ∧
    create_ticket dbTicket 1 ⟨"request", "Water", "", "medium"⟩ 2 0 =
      .error (.attributeError
        "EmergencyTicketCreate object has no attribute due_at") := by
  exact ⟨rfl, rfl, rfl, rfl, rfl⟩

/-- Claim C5: the claim says a patch explicitly containing due_at sets the
ticket's due_at.  The code refutes it: EmergencyTicketUpdate declares no
due_at field, so Pydantic drops the key, the model_fields_set guard never
fires, and the value is discarded; a due_at-only patch leaves the database
exactly unchanged, and a patch with title and due_at applies only the title
(both requests then die in serialization after the commit). -/
theorem update_ticket_discards_due_at :
    update_ticket dbTicket 1 5 duePatch 2 0 =
      (.error (.attributeError
        "EmergencyTicket object has no attribute due_at"), dbTicket) ∧
    update_ticket dbTicket 1 5 titleDuePatch 2 0 =
      (.error (.attributeError
        "EmergencyTicket object has no attribute due_at"), dbTicketRetitled) := by
  exact ⟨rfl, rfl⟩

/-- Claim C6: a member with a stored vote who casts the same vote_type again
gets a 409 Conflict (and no state is changed, the call fails); casting the
other vote_type succeeds, returning the same row updated in place (same row
id), and the number of vote rows of that (community, user) pair does not
grow. -/
theorem duplicate_vote_conflict (db : DB) (community_id user_id : Nat)
    (c : Community) (e : CrisisVote)
    (hc : db.communities.find? (fun x => x.id == community_id) = some c)
    (hact : c.is_active = true)
    (hmem : (db.members.find? (fun m =>
      m.community_id == community_id && m.user_id == user_id)).isSome = true)
    (he : db.votes.find? (fun v =>
      v.community_id == community_id && v.user_id == user_id) = some e)
    (hets : e.vote_type = "activate" ∨ e.vote_type = "deactivate")
    (hids : (db.votes.map CrisisVote.id).Nodup) :
    cast_crisis_vote db community_id e.vote_type user_id =
      .error (.conflict "You have already voted this way")
    ∧ ∀ vt, (vt = "activate" ∨ vt = "deactivate") → vt ≠ e.vote_type →
        ∃ db', cast_crisis_vote db community_id vt user_id =
            .ok ({ e with vote_type := vt }, db')
          ∧ (pairVotes db' community_id user_id).length ≤
              (pairVotes db community_id user_id).length := by
  obtain ⟨m, hm⟩ := Option.isSome_iff_exists.mp hmem
  constructor
  · have hpat : (e.vote_type == "activate" || e.vote_type == "deactivate") =
        true := by
      rcases hets with h | h <;> simp [h]
    have hrec : record_vote db community_id user_id e.vote_type =
        .error (.conflict "You have already voted this way") := by
      unfold record_vote
      rw [he]
      simp
    unfold cast_crisis_vote
    rw [hpat, get_community_ok hc hact, require_membership_ok hm, hrec]
    rfl
  · intro vt hvt hne
    have hpat : (vt == "activate" || vt == "deactivate") = true := by
      rcases hvt with h | h <;> simp [h]
    have hbne : (e.vote_type == vt) = false :=
      beq_eq_false_iff_ne.mpr (Ne.symm hne)
    have hrec : record_vote db community_id user_id vt =
        .ok ({ e with vote_type := vt },
          { db with votes := db.votes.map (fun v =>
              if v.id == e.id then { e with vote_type := vt } else v) }) := by
      unfold record_vote
      simp only [he, hbne]
      rfl
    refine ⟨_, cast_eq_of_record hc hact hmem hpat hrec, ?_⟩
    have h1 := pairVotes_check_threshold_le
      { db with votes := db.votes.map (fun v =>
          if v.id == e.id then { e with vote_type := vt } else v) }
      c community_id user_id vt community_id user_id
    have h2 : (pairVotes { db with votes := db.votes.map (fun v =>
        if v.id == e.id then { e with vote_type := vt } else v) }
        community_id user_id).length =
        (pairVotes db community_id user_id).length := by
      unfold pairVotes
      exact length_filter_map_update hids (List.mem_of_find?_eq_some he) vt _ _
    exact h1.trans (le_of_eq h2)

/-- Witness for duplicate_vote_conflict: with three members and user 10
already voting activate, the same vote again is a Conflict, and a deactivate
vote from the same user succeeds as an in-place switch. -/
theorem duplicate_vote_conflict_witness :
    cast_crisis_vote dbTrio 1 "activate" 10 =
      .error (.conflict "You have already voted this way")
    ∧ ∃ db', cast_crisis_vote dbTrio 1 "deactivate" 10 =
        .ok (⟨1, 1, 10, "deactivate"⟩, db')
      ∧ (pairVotes db' 1 10).length ≤ (pairVotes dbTrio 1 10).length := by
  have h := duplicate_vote_conflict dbTrio 1 10 ⟨1, "Kiez", true, "blue"⟩
    ⟨1, 1, 10, "activate"⟩ rfl rfl rfl rfl (Or.inl rfl) (by decide)
  exact ⟨h.1, h.2 "deactivate" (Or.inr rfl) (by decide)⟩

theorem require_membership_none {db : DB} {community_id user_id : Nat}
    (hm : db.members.find? (fun x =>
      x.community_id == community_id && x.user_id == user_id) = none) :
    _require_membership db community_id user_id =
      .error (.forbidden "Not a member") := by
  unfold _require_membership
  rw [hm]

theorem require_admin_ok {db : DB} {community_id user_id : Nat}
    {m : CommunityMember}
    (hm : db.members.find? (fun x =>
      x.community_id == community_id && x.user_id == user_id) = some m)
    (hrole : m.role = "admin") :
    _require_admin db community_id user_id = .ok m := by
  unfold _require_admin
  rw [require_membership_ok hm]
  simp [hrole]

theorem require_admin_forbidden {db : DB} {community_id user_id : Nat}
    {m : CommunityMember}
    (hm : db.members.find? (fun x =>
      x.community_id == community_id && x.user_id == user_id) = some m)
    (hrole : m.role ≠ "admin") :
    _require_admin db community_id user_id =
      .error (.forbidden "Admin access required") := by
  unfold _require_admin
  rw [require_membership_ok hm]
  have hb : (m.role == "admin") = false := beq_eq_false_iff_ne.mpr hrole
  simp [hb]

theorem get_community_notFound {db : DB} {community_id : Nat}
    (h : db.communities.find? (fun x => x.id == community_id) = none ∨
      ∃ c, db.communities.find? (fun x => x.id == community_id) = some c ∧
        c.is_active = false) :
    _get_community db community_id = .error (.notFound "Community not found") := by
  unfold _get_community
  rcases h with h | ⟨c, hc, hact⟩
  · rw [h]
  · rw [hc]
    simp [hact]

/-- Claim C7: for an admin of an active community and a valid target mode,
toggle_mode sets the mode unconditionally and deletes every CrisisVote row of
the community, whatever votes exist and whether or not the target differs from
the current mode; a non-admin member or a non-member gets Forbidden, a missing
or inactive community gets NotFound, and a target mode outside blue and red is
rejected by validation. -/
theorem toggle_mode_spec (db : DB) (community_id user_id : Nat)
    (mode : String) :
    (∀ c m, (mode = "blue" ∨ mode = "red") →
      db.communities.find? (fun x => x.id == community_id) = some c →
      c.is_active = true →
      db.members.find? (fun x =>
        x.community_id == community_id && x.user_id == user_id) = some m →
      m.role = "admin" →
      toggle_crisis_mode db community_id mode user_id =
        .ok (toggle_apply db c community_id mode user_id)
      ∧ modeOf (toggle_apply db c community_id mode user_id).2 community_id =
          some mode
      ∧ votesFor (toggle_apply db c community_id mode user_id).2 community_id =
          []
      ∧ (toggle_apply db c community_id mode user_id).1.mode = mode)
    ∧ (∀ c m, (mode = "blue" ∨ mode = "red") →
      db.communities.find? (fun x => x.id == community_id) = some c →
      c.is_active = true →
      db.members.find? (fun x =>
        x.community_id == community_id && x.user_id == user_id) = some m →
      m.role ≠ "admin" →
      toggle_crisis_mode db community_id mode user_id =
        .error (.forbidden "Admin access required"))
    ∧ (∀ c, (mode = "blue" ∨ mode = "red") →
      db.communities.find? (fun x => x.id == community_id) = some c →
      c.is_active = true →
      db.members.find? (fun x =>
        x.community_id == community_id && x.user_id == user_id) = none →
      toggle_crisis_mode db community_id mode user_id =
        .error (.forbidden "Not a member"))
    ∧ ((mode = "blue" ∨ mode = "red") →
      (db.communities.find? (fun x => x.id == community_id) = none ∨
        ∃ c, db.communities.find? (fun x => x.id == community_id) = some c ∧
          c.is_active = false) →
      toggle_crisis_mode db community_id mode user_id =
        .error (.notFound "Community not found"))
    ∧ (mode ≠ "blue" → mode ≠ "red" →
      toggle_crisis_mode db community_id mode user_id =
        .error (.validationError "mode must match pattern blue or red")) := by
  refine ⟨?_, ?_, ?_, ?_, ?_⟩
  · intro c m hmode hc hact hm hrole
    have hpat : (mode == "blue" || mode == "red") = true := by
      rcases hmode with h | h <;> simp [h]
    have htog : toggle_crisis_mode db community_id mode user_id =
        .ok (toggle_apply db c community_id mode user_id) := by
      unfold toggle_crisis_mode
      rw [hpat, get_community_ok hc hact, require_admin_ok hm hrole]
      rfl
    refine ⟨htog, ?_, ?_, rfl⟩
    · show modeOf (record_activity (clearVotes
        (setMode db community_id mode) community_id) _ _ _ _) community_id =
          some mode
      rw [modeOf_record_activity, modeOf_clearVotes]
      exact modeOf_setMode_self hc mode
    · show votesFor (record_activity (clearVotes
        (setMode db community_id mode) community_id) _ _ _ _) community_id = []
      rw [votesFor_record_activity]
      exact votesFor_clearVotes _ _
  · intro c m hmode hc hact hm hrole
    have hpat : (mode == "blue" || mode == "red") = true := by
      rcases hmode with h | h <;> simp [h]
    unfold toggle_crisis_mode
    rw [hpat, get_community_ok hc hact, require_admin_forbidden hm hrole]
    rfl
  · intro c hmode hc hact hm
    have hpat : (mode == "blue" || mode == "red") = true := by
      rcases hmode with h | h <;> simp [h]
    unfold toggle_crisis_mode
    have hadm : _require_admin db community_id user_id =
        .error (.forbidden "Not a member") := by
      unfold _require_admin
      rw [require_membership_none hm]
    rw [hpat, get_community_ok hc hact, hadm]
    rfl
  · intro hmode hnf
    have hpat : (mode == "blue" || mode == "red") = true := by
      rcases hmode with h | h <;> simp [h]
    unfold toggle_crisis_mode
    rw [hpat, get_community_notFound hnf]
    rfl
  · intro h1 h2
    have hb1 : (mode == "blue") = false := beq_eq_false_iff_ne.mpr h1
    have hb2 : (mode == "red") = false := beq_eq_false_iff_ne.mpr h2
    unfold toggle_crisis_mode
    rw [hb1, hb2]
    rfl

/-- Witness for toggle_mode_spec: the admin of dbAdmin toggles the community
to red, which clears the stale vote row; the plain member's attempt is
Forbidden. -/
theorem toggle_mode_spec_witness :
    toggle_crisis_mode dbAdmin 1 "red" 10 =
      .ok (toggle_apply dbAdmin ⟨1, "Kiez", true, "blue"⟩ 1 "red" 10)
    ∧ modeOf (toggle_apply dbAdmin ⟨1, "Kiez", true, "blue"⟩ 1 "red" 10).2 1 =
        some "red"
    ∧ votesFor (toggle_apply dbAdmin ⟨1, "Kiez", true, "blue"⟩ 1 "red" 10).2 1 =
        []
    ∧ toggle_crisis_mode dbAdmin 1 "red" 11 =
        .error (.forbidden "Admin access required") := by
  obtain ⟨ha, -, -, -, -⟩ := toggle_mode_spec dbAdmin 1 10 "red"
  obtain ⟨-, hb, -, -, -⟩ := toggle_mode_spec dbAdmin 1 11 "red"
  have hx := ha ⟨1, "Kiez", true, "blue"⟩ ⟨1, 1, 10, "admin"⟩ (Or.inr rfl)
    rfl rfl rfl rfl
  exact ⟨hx.1, hx.2.1, hx.2.2.1,
    hb ⟨1, "Kiez", true, "blue"⟩ ⟨2, 1, 11, "member"⟩ (Or.inr rfl)
      rfl rfl rfl (by decide)⟩

/-- Claim C8: for a community member with a schema-valid body, creating an
emergency_ping fails with the crisis-mode ValidationError exactly when the
community's mode is blue; in red mode the call does not fail for that reason
(it fails with the unrelated AttributeError of the missing due_at field); and
request and offer creation behaves identically whatever the mode is (the same
outcome for every mode value), so it is not gated on the mode. -/
theorem emergency_ping_gating (db : DB) (community_id user_id : Nat)
    (c : Community) (m : CommunityMember) (body : EmergencyTicketCreate)
    (now : Int)
    (hc : db.communities.find? (fun x => x.id == community_id) = some c)
    (hact : c.is_active = true)
    (hm : db.members.find? (fun x =>
      x.community_id == community_id && x.user_id == user_id) = some m)
    (hvalid : validTicketCreate body = true) :
    (body.ticket_type = "emergency_ping" → c.mode = "blue" →
      create_ticket db community_id body user_id now =
        .error (.validationError
          "Emergency pings are only available in Red Sky (crisis) mode"))
    ∧ (body.ticket_type = "emergency_ping" → c.mode = "red" →
      create_ticket db community_id body user_id now =
        .error (.attributeError
          "EmergencyTicketCreate object has no attribute due_at")
      ∧ create_ticket db community_id body user_id now ≠
        .error (.validationError
          "Emergency pings are only available in Red Sky (crisis) mode"))
    ∧ ((body.ticket_type = "request" ∨ body.ticket_type = "offer") →
      create_ticket db community_id body user_id now =
        .error (.attributeError
          "EmergencyTicketCreate object has no attribute due_at")) := by
  refine ⟨?_, ?_, ?_⟩
  · intro ht hmode
    unfold create_ticket
    simp only [hvalid, get_community_ok hc hact, require_membership_ok hm,
      ht, hmode]
    rfl
  · intro ht hmode
    have heq : create_ticket db community_id body user_id now =
        .error (.attributeError
          "EmergencyTicketCreate object has no attribute due_at") := by
      unfold create_ticket
      simp only [hvalid, get_community_ok hc hact, require_membership_ok hm,
        ht, hmode]
      rfl
    refine ⟨heq, ?_⟩
    rw [heq]
    simp
  · intro ht
    unfold create_ticket
    rcases ht with h | h <;>
      simp only [hvalid, get_community_ok hc hact, require_membership_ok hm,
        h] <;>
      rfl

/-- Witness for emergency_ping_gating: the same member files the same ping in
a blue and in a red community; the blue one is rejected by the crisis-mode
gate, the red one passes the gate (and dies on the missing due_at instead). -/
theorem emergency_ping_gating_witness :
    create_ticket dbTwoModes 1 ⟨"emergency_ping", "Ping", "", "medium"⟩ 2 0 =
      .error (.validationError
        "Emergency pings are only available in Red Sky (crisis) mode")
    ∧ create_ticket dbTwoModes 2 ⟨"emergency_ping", "Ping", "", "medium"⟩ 2 0 =
      .error (.attributeError
        "EmergencyTicketCreate object has no attribute due_at") := by
  have h1 := emergency_ping_gating dbTwoModes 1 2 ⟨1, "Bluetown", true, "blue"⟩
    ⟨1, 1, 2, "member"⟩ ⟨"emergency_ping", "Ping", "", "medium"⟩ 0
    rfl rfl rfl (by decide)
  have h2 := emergency_ping_gating dbTwoModes 2 2 ⟨2, "Redtown", true, "red"⟩
    ⟨2, 2, 2, "member"⟩ ⟨"emergency_ping", "Ping", "", "medium"⟩ 0
    rfl rfl rfl (by decide)
  exact ⟨h1.1 rfl rfl, (h2.2.1 rfl rfl).1⟩

theorem votesWF_of_votes_eq {db db' : DB}
    (hv : db'.votes = db.votes) (hn : db'.next_vote_id = db.next_vote_id)
    (h : VotesWF db) : VotesWF db' := by
  obtain ⟨hnd, hbound, hpairs⟩ := h
  refine ⟨by rw [hv]; exact hnd, ?_, ?_⟩
  · intro v hvm
    rw [hv] at hvm
    rw [hn]
    exact hbound v hvm
  · intro p q
    unfold pairVotes
    rw [hv]
    exact hpairs p q

theorem votesWF_of_filter {db db' : DB} (q : CrisisVote → Bool)
    (hv : db'.votes = db.votes.filter q)
    (hn : db'.next_vote_id = db.next_vote_id)
    (h : VotesWF db) : VotesWF db' := by
  obtain ⟨hnd, hbound, hpairs⟩ := h
  refine ⟨?_, ?_, ?_⟩
  · rw [hv]
    exact hnd.sublist ((List.filter_sublist _).map _)
  · intro v hvm
    rw [hv] at hvm
    rw [hn]
    exact hbound v ((List.filter_sublist _).subset hvm)
  · intro p q'
    have hlen : (pairVotes db' p q').length =
        ((db.votes.filter q).filter
          (fun v => v.community_id == p && v.user_id == q')).length := by
      unfold pairVotes
      rw [hv]
    rw [hlen]
    exact le_trans ((List.filter_sublist db.votes).filter _).length_le
      (hpairs p q')

theorem check_threshold_next (db1 : DB) (c : Community)
    (community_id user_id : Nat) (vt : String) :
    (check_threshold db1 c community_id user_id vt).next_vote_id =
      db1.next_vote_id := by
  by_cases hge : voteCount db1 community_id vt ≥
      max 1 ((memberCount db1 community_id * VOTE_THRESHOLD_PCT + 99) / 100)
  · by_cases hne : c.mode ≠ (if vt == "activate" then "red" else "blue")
    · simp only [check_threshold]
      rw [if_pos hge, if_pos hne]
      rfl
    · simp only [check_threshold]
      rw [if_pos hge, if_neg hne]
  · simp only [check_threshold]
    rw [if_neg hge]

theorem record_vote_eq_some {db : DB} {community_id user_id : Nat}
    {vt : String} {e : CrisisVote}
    (hf : db.votes.find? (fun v =>
      v.community_id == community_id && v.user_id == user_id) = some e) :
    record_vote db community_id user_id vt =
      if (e.vote_type == vt) = true then
        .error (.conflict "You have already voted this way")
      else
        .ok ({ e with vote_type := vt },
          { db with votes := db.votes.map (fun v =>
              if v.id == e.id then { e with vote_type := vt } else v) }) := by
  unfold record_vote
  rw [hf]

theorem record_vote_eq_none {db : DB} {community_id user_id : Nat}
    {vt : String}
    (hf : db.votes.find? (fun v =>
      v.community_id == community_id && v.user_id == user_id) = none) :
    record_vote db community_id user_id vt =
      .ok ((⟨db.next_vote_id, community_id, user_id, vt⟩ : CrisisVote),
        { db with
          votes := db.votes ++
            [(⟨db.next_vote_id, community_id, user_id, vt⟩ : CrisisVote)]
          next_vote_id := db.next_vote_id + 1 }) := by
  unfold record_vote
  rw [hf]

theorem votesWF_record {db : DB} {community_id user_id : Nat} {vt : String}
    {vote : CrisisVote} {db1 : DB}
    (h : record_vote db community_id user_id vt = .ok (vote, db1))
    (hwf : VotesWF db) : VotesWF db1 := by
  obtain ⟨hnd, hbound, hpairs⟩ := hwf
  cases hf : db.votes.find? (fun v =>
      v.community_id == community_id && v.user_id == user_id) with
  | some e =>
    rw [record_vote_eq_some hf] at h
    by_cases hsame : (e.vote_type == vt) = true
    · rw [if_pos hsame] at h
      exact absurd h (by simp)
    · rw [if_neg hsame] at h
      injection h with h
      rw [Prod.mk.injEq] at h
      obtain ⟨-, hdb⟩ := h
      subst hdb
      refine ⟨?_, ?_, ?_⟩
      · have hids : (db.votes.map (fun v =>
            if v.id == e.id then { e with vote_type := vt } else v)).map
              CrisisVote.id = db.votes.map CrisisVote.id := by
          rw [List.map_map]
          apply List.map_congr_left
          intro v _
          by_cases hid : (v.id == e.id) = true
          · simp only [Function.comp_apply, hid, if_true]
            exact (eq_of_beq hid).symm
          · simp only [Function.comp_apply, hid]
            rfl
        show ((db.votes.map _).map CrisisVote.id).Nodup
        rw [hids]
        exact hnd
      · intro v hv
        rw [List.mem_map] at hv
        obtain ⟨w, hw, hfw⟩ := hv
        have hvid : v.id = w.id := by
          rw [← hfw]
          by_cases hid : (w.id == e.id) = true
          · simp only [hid, if_true]
            exact (eq_of_beq hid).symm
          · simp only [hid]
            rfl
        show v.id < db.next_vote_id
        rw [hvid]
        exact hbound w hw
      · intro p q
        exact (length_filter_map_update hnd
          (List.mem_of_find?_eq_some hf) vt p q).trans_le (hpairs p q)
  | none =>
    rw [record_vote_eq_none hf] at h
    injection h with h
    rw [Prod.mk.injEq] at h
    obtain ⟨-, hdb⟩ := h
    subst hdb
    refine ⟨?_, ?_, ?_⟩
    · show ((db.votes ++
        [(⟨db.next_vote_id, community_id, user_id, vt⟩ : CrisisVote)]).map
        CrisisVote.id).Nodup
      rw [List.map_append]
      apply List.Nodup.append hnd (List.nodup_singleton _)
      intro a ha hb
      rw [List.mem_singleton] at hb
      subst hb
      rw [List.mem_map] at ha
      obtain ⟨w, hw, hwid⟩ := ha
      exact absurd hwid (Nat.ne_of_lt (hbound w hw))
    · intro v hv
      rw [List.mem_append, List.mem_singleton] at hv
      show v.id < db.next_vote_id + 1
      rcases hv with hv | hv
      · exact Nat.lt_trans (hbound v hv) (Nat.lt_succ_self _)
      · subst hv
        exact Nat.lt_succ_self _
    · intro p q
      show ((db.votes ++
        [(⟨db.next_vote_id, community_id, user_id, vt⟩ : CrisisVote)]).filter
        (fun v => v.community_id == p && v.user_id == q)).length ≤ 1
      rw [List.filter_append, List.length_append]
      by_cases hmatch : ((community_id == p) && (user_id == q)) = true
      · rw [Bool.and_eq_true] at hmatch
        obtain ⟨hp, hq⟩ := hmatch
        have hp' : community_id = p := eq_of_beq hp
        have hq' : user_id = q := eq_of_beq hq
        subst hp'
        subst hq'
        have hnil : db.votes.filter (fun v =>
            v.community_id == community_id && v.user_id == user_id) = [] := by
          rw [List.filter_eq_nil_iff]
          exact List.find?_eq_none.mp hf
        rw [hnil]
        simp only [List.length_nil, Nat.zero_add]
        exact List.length_filter_le _ _
      · have hb : ((community_id == p) && (user_id == q)) = false := by
          cases hB : ((community_id == p) && (user_id == q)) with
          | false => rfl
          | true => exact absurd hB hmatch
        have hfalse : (([(⟨db.next_vote_id, community_id, user_id, vt⟩ :
            CrisisVote)]).filter
            (fun v => v.community_id == p && v.user_id == q)) = [] := by
          rw [List.filter_singleton]
          simp [hb]
        rw [hfalse]
        simp only [List.length_nil, Nat.add_zero]
        exact hpairs p q

theorem votesWF_cast {db : DB} {community_id user_id : Nat} {vt : String}
    {vote : CrisisVote} {db' : DB}
    (h : cast_crisis_vote db community_id vt user_id = .ok (vote, db'))
    (hwf : VotesWF db) : VotesWF db' := by
  unfold cast_crisis_vote at h
  split at h
  · exact absurd h (by simp)
  · cases hg : _get_community db community_id with
    | error e =>
      rw [hg] at h
      exact absurd h (by simp)
    | ok community =>
      rw [hg] at h
      cases hmem : _require_membership db community_id user_id with
      | error e =>
        rw [hmem] at h
        exact absurd h (by simp)
      | ok mrow =>
        rw [hmem] at h
        cases hrec : record_vote db community_id user_id vt with
        | error e =>
          rw [hrec] at h
          exact absurd h (by simp)
        | ok p =>
          obtain ⟨v1, db1⟩ := p
          rw [hrec] at h
          replace h : (.ok (v1,
              check_threshold db1 community community_id user_id vt) :
              Except ApiError (CrisisVote × DB)) = .ok (vote, db') := h
          injection h with h
          rw [Prod.mk.injEq] at h
          obtain ⟨-, hdb⟩ := h
          subst hdb
          have hwf1 := votesWF_record hrec hwf
          rcases check_threshold_votes db1 community community_id user_id vt
            with hv | hv
          · exact votesWF_of_votes_eq hv
              (check_threshold_next db1 community community_id user_id vt) hwf1
          · exact votesWF_of_filter _ hv
              (check_threshold_next db1 community community_id user_id vt) hwf1

theorem retract_eq_error {db : DB} {community_id user_id : Nat} {e : ApiError}
    (hg : _get_community db community_id = .error e) :
    retract_crisis_vote db community_id user_id = .error e := by
  unfold retract_crisis_vote
  rw [hg]

theorem retract_eq_none {db : DB} {community_id user_id : Nat} {c : Community}
    (hg : _get_community db community_id = .ok c)
    (hf : db.votes.find? (fun v =>
      v.community_id == community_id && v.user_id == user_id) = none) :
    retract_crisis_vote db community_id user_id =
      .error (.notFound "No vote to retract") := by
  unfold retract_crisis_vote
  rw [hg, hf]

theorem retract_eq_some {db : DB} {community_id user_id : Nat} {c : Community}
    {vote : CrisisVote}
    (hg : _get_community db community_id = .ok c)
    (hf : db.votes.find? (fun v =>
      v.community_id == community_id && v.user_id == user_id) = some vote) :
    retract_crisis_vote db community_id user_id =
      .ok { db with votes := db.votes.filter (fun v => !(v.id == vote.id)) } := by
  unfold retract_crisis_vote
  rw [hg, hf]

theorem votesWF_retract {db : DB} {community_id user_id : Nat} {db' : DB}
    (h : retract_crisis_vote db community_id user_id = .ok db')
    (hwf : VotesWF db) : VotesWF db' := by
  cases hg : _get_community db community_id with
  | error e =>
    rw [retract_eq_error hg] at h
    exact absurd h (by simp)
  | ok c =>
    cases hf : db.votes.find? (fun v =>
        v.community_id == community_id && v.user_id == user_id) with
    | none =>
      rw [retract_eq_none hg hf] at h
      exact absurd h (by simp)
    | some vote =>
      rw [retract_eq_some hg hf] at h
      injection h with h
      subst h
      exact votesWF_of_filter _ rfl rfl hwf

theorem votesWF_toggle {db : DB} {community_id user_id : Nat} {mode : String}
    {st : CrisisModeStatus} {db' : DB}
    (h : toggle_crisis_mode db community_id mode user_id = .ok (st, db'))
    (hwf : VotesWF db) : VotesWF db' := by
  unfold toggle_crisis_mode at h
  split at h
  · exact absurd h (by simp)
  · cases hg : _get_community db community_id with
    | error e =>
      rw [hg] at h
      exact absurd h (by simp)
    | ok community =>
      rw [hg] at h
      cases ha : _require_admin db community_id user_id with
      | error e =>
        rw [ha] at h
        exact absurd h (by simp)
      | ok mem =>
        rw [ha] at h
        replace h : (.ok (toggle_apply db community community_id mode user_id) :
            Except ApiError (CrisisModeStatus × DB)) = .ok (st, db') := h
        injection h with h
        have hdb : db' =
            (toggle_apply db community community_id mode user_id).2 := by
          rw [h]
        subst hdb
        exact votesWF_of_filter (fun v => !(v.community_id == community_id))
          rfl rfl hwf

theorem votesWF_applyOp (db : DB) (op : Op) (hwf : VotesWF db) :
    VotesWF (applyOp db op) := by
  cases op with
  | cast community_id user_id vt =>
    simp only [applyOp]
    cases h : cast_crisis_vote db community_id vt user_id with
    | ok p =>
      obtain ⟨v, db'⟩ := p
      exact votesWF_cast h hwf
    | error e => exact hwf
  | retract community_id user_id =>
    simp only [applyOp]
    cases h : retract_crisis_vote db community_id user_id with
    | ok db' => exact votesWF_retract h hwf
    | error e => exact hwf
  | toggle community_id user_id mode =>
    simp only [applyOp]
    cases h : toggle_crisis_mode db community_id mode user_id with
    | ok p =>
      obtain ⟨st, db'⟩ := p
      exact votesWF_toggle h hwf
    | error e => exact hwf

theorem votesWF_runOps (db : DB) (ops : List Op) (hwf : VotesWF db) :
    VotesWF (runOps db ops) := by
  induction ops generalizing db with
  | nil => exact hwf
  | cons op rest ih => exact ih (applyOp db op) (votesWF_applyOp db op hwf)

/-- Claim C9: starting from any state with no votes, every sequence of
cast_vote, retract_vote and toggle_mode requests (successful or failing)
leaves at most one CrisisVote row per (community, user) pair. -/
theorem at_most_one_vote_per_pair (db0 : DB) (ops : List Op)
    (h0 : db0.votes = []) : atMostOneVotePerPair (runOps db0 ops) := by
  have hwf : VotesWF db0 := by
    refine ⟨?_, ?_, ?_⟩
    · simp [h0]
    · intro v hv
      rw [h0] at hv
      exact absurd hv (List.not_mem_nil v)
    · intro p q
      unfold pairVotes
      rw [h0]
      simp
  exact (votesWF_runOps db0 ops hwf).2.2

/-- Witness for at_most_one_vote_per_pair: a concrete four-request run over
the two-member community. -/
theorem at_most_one_vote_per_pair_witness :
    atMostOneVotePerPair (runOps dbPair
      [.cast 1 1 "activate", .cast 1 2 "deactivate", .retract 1 1,
       .toggle 1 1 "red"]) :=
  at_most_one_vote_per_pair dbPair
    [.cast 1 1 "activate", .cast 1 2 "deactivate", .retract 1 1,
     .toggle 1 1 "red"] rfl

/-- Claim C10: leave_community deletes exactly the departing user's membership
row and touches no CrisisVote (nor any other table); consequently, in the
reachable state where user 1 of the two-member community votes activate and
then leaves, get_status still tallies the ex-member's vote while the member
count has dropped to one, and the remaining member's single activate vote then
reaches the quorum computed from the reduced count (threshold 1, count 2
including the ex-member's vote) and switches the mode to red. -/
theorem leave_community_keeps_votes :
    (∀ (db : DB) (community_id user_id : Nat) (db' : DB),
      leave_community db community_id user_id = .ok db' →
      db'.votes = db.votes ∧ db'.communities = db.communities ∧
      db'.tickets = db.tickets ∧ db'.activities = db.activities ∧
      ∃ m, db.members.find? (fun x =>
          x.community_id == community_id && x.user_id == user_id) = some m ∧
        db'.members = db.members.filter (fun x => !(x.id == m.id)))
    ∧ (∃ v1 db1, cast_crisis_vote dbPair 1 "activate" 1 = .ok (v1, db1) ∧
       ∃ db2, leave_community db1 1 1 = .ok db2 ∧
         db2.votes = [⟨1, 1, 1, "activate"⟩] ∧
         (db2.members.filter (fun m => m.user_id == 1)).length = 0 ∧
         memberCount db2 1 = 1 ∧
         get_crisis_status db2 1 = .ok ⟨1, "blue", 1, 0, 1, 60⟩ ∧
         ∃ v2 db3, cast_crisis_vote db2 1 "activate" 2 = .ok (v2, db3) ∧
           modeOf db3 1 = some "red" ∧ votesFor db3 1 = []) := by
  constructor
  · intro db community_id user_id db' h
    unfold leave_community at h
    cases hf : db.members.find? (fun x =>
        x.community_id == community_id && x.user_id == user_id) with
    | none =>
      rw [hf] at h
      exact absurd h (by simp)
    | some m =>
      rw [hf] at h
      replace h : (Except.ok
          { db with
            members := db.members.filter (fun x => !(x.id == m.id)) } :
          Except ApiError DB) = .ok db' := h
      injection h with h
      subst h
      exact ⟨rfl, rfl, rfl, rfl, m, rfl, rfl⟩
  · exact ⟨⟨1, 1, 1, "activate"⟩, _, rfl, _, rfl, rfl, rfl, rfl, rfl,
      ⟨2, 1, 2, "activate"⟩, _, rfl, rfl, rfl⟩

/-- Witness for leave_community_keeps_votes: user 1 leaves dbPair; only the
membership row disappears. -/
theorem leave_community_keeps_votes_witness :
    dbPairLeft.votes = dbPair.votes ∧
    dbPairLeft.communities = dbPair.communities ∧
    dbPairLeft.tickets = dbPair.tickets ∧
    dbPairLeft.activities = dbPair.activities ∧
    ∃ m, dbPair.members.find? (fun x =>
        x.community_id == 1 && x.user_id == 1) = some m ∧
      dbPairLeft.members = dbPair.members.filter (fun x => !(x.id == m.id)) :=
  leave_community_keeps_votes.1 dbPair 1 1 dbPairLeft rfl

end NeighbourGood
